import Mathlib

/-!
Verification of the vision-transformer construction pipeline in
`Image Classification using Visual Transformers/vit.py`: the shifted-patch
tokenizer, the locality multi-head attention with its diagonal mask, the
transformer encoder block, and the warmup-cosine learning-rate schedule.
Python float arithmetic is embedded into `ℝ` (exact rationals `ℚ` where only
control flow matters), Python exceptions into `Except PyError`, and Python
attribute lookup on the objects built by the constructors into explicit
name lists recording exactly the attributes each `__init__` assigns.
-/

namespace Vit

/-- Python exceptions raised by the embedded code: `raise ValueError(msg)` and
the `AttributeError` produced by reading an attribute that was never assigned. -/
inductive PyError where
  | valueError (msg : String)
  | attributeError (attr : String)
deriving DecidableEq

/-- A (single) image tensor of shape (height, width, channels); `pix i j c` is
the pixel value at row `i`, column `j`, channel `c` (out-of-range reads are
irrelevant: every operation below guards its reads by the recorded dims). -/
structure Image where
  height : ℕ
  width : ℕ
  channels : ℕ
  pix : ℕ → ℕ → ℕ → ℝ

/-- `tf.image.crop_to_bounding_box(images, offset_height, offset_width,
target_height, target_width)`: the result has the target dims and its pixel
(i, j) is the input pixel (i + offset_height, j + offset_width). -/
def crop_to_bounding_box (images : Image) (offset_height offset_width target_height target_width : ℕ) : Image :=
  { height := target_height
    width := target_width
    channels := images.channels
    pix := fun i j c =>
      if i < target_height ∧ j < target_width then images.pix (i + offset_height) (j + offset_width) c else 0 }

/-- `tf.image.pad_to_bounding_box(image, offset_height, offset_width,
target_height, target_width)`: the result has the target dims, carries the
input image at offset (offset_height, offset_width) and is zero elsewhere. -/
def pad_to_bounding_box (image : Image) (offset_height offset_width target_height target_width : ℕ) : Image :=
  { height := target_height
    width := target_width
    channels := image.channels
    pix := fun i j c =>
      if offset_height ≤ i ∧ i < offset_height + image.height ∧
         offset_width ≤ j ∧ j < offset_width + image.width ∧
         i < target_height ∧ j < target_width then
        image.pix (i - offset_height) (j - offset_width) c
      else 0 }

/-- `tf.concat([a, b], axis = -1)` for two images of equal spatial dims:
channel axes are concatenated. -/
def concat_channels (a b : Image) : Image :=
  { height := a.height
    width := a.width
    channels := a.channels + b.channels
    pix := fun i j c => if c < a.channels then a.pix i j c else b.pix i j (c - a.channels) }

/-- The body of `shiftedpatch.crop_shift_pad` (vit.py lines 88-122), with the
instance attributes `self.image_size` and `self.half_patch` entering as the
parameters `image_size` and ` half_patch` (the attribute-name mismatch between
the constructor's assignment and this read is modelled separately in
`crop_shift_pad_method`).  The four if/elif branches on `mode` choose the crop
offsets (`crop_height`, `crop_width`) and the pad offsets (`shift_height`,
`shift_width`); the unrecognized-mode fallback is the "right-down" branch. -/
def crop_shift_pad (image_size half_patch : ℕ) (images : Image) (mode : String) : Image :=
  let crop_height := if mode = "left-up" then half_patch else if mode = "left-down" then 0 else if mode = "right-up" then half_patch else 0
  let crop_width := if mode = "left-up" then half_patch else if mode = "left-down" then half_patch else if mode = "right-up" then 0 else 0
  let shift_height := if mode = "left-up" then 0 else if mode = "left-down" then half_patch else if mode = "right-up" then 0 else half_patch
  let shift_width := if mode = "left-up" then 0 else if mode = "left-down" then 0 else if mode = "right-up" then half_patch else half_patch
  let crop := crop_to_bounding_box images crop_height crop_width (image_size - half_patch) (image_size - half_patch)
  pad_to_bounding_box crop shift_height shift_width image_size image_size

/-- The state a `shiftedpatch` layer holds after `__init__` (vit.py lines
72-86).  Note the stored half-patch attribute is named `haff_patch`, exactly as
assigned on line 83.  The learned sublayers `projection` (a Dense layer applied
to the last axis) and `layer_norm` are carried as row-vector functions. -/
structure shiftedpatch where
  vanilla : Bool
  image_size : ℕ
  patch_size : ℕ
  haff_patch : ℕ
  num_patches : ℕ
  projection : List ℝ → List ℝ
  layer_norm : List ℝ → List ℝ

/-- `shiftedpatch.__init__`: stores the configuration; the half-patch value
`patch_size // 2` is assigned to the attribute `haff_patch` (line 83), and
`num_patches` parameterizes the `Reshape((num_patches, -1))` layer. -/
def shiftedpatch_init (image_size patch_size num_patches : ℕ) (projection layer_norm : List ℝ → List ℝ) (vanilla : Bool) : shiftedpatch :=
  { vanilla := vanilla
    image_size := image_size
    patch_size := patch_size
    haff_patch := patch_size / 2
    num_patches := num_patches
    projection := projection
    layer_norm := layer_norm }

/-- The attribute names `shiftedpatch.__init__` assigns on `self`
(vit.py lines 80-86), in order. -/
def shiftedpatch_attrNames : List String :=
  ["vanilla", "image_size", "patch_size", "haff_patch", "flatten_patches", "projection", "layer_norm"]

/-- Calling `self.crop_shift_pad(images, mode)` on a constructed `shiftedpatch`
instance: the method body reads `self.half_patch` (lines 90-113), so Python
first looks the name up among the instance's attributes; if absent, the call
raises `AttributeError` before any cropping happens.  When the lookup would
succeed, the stored half value (the constructor's `patch_size // 2`) is used. -/
def crop_shift_pad_method (self : shiftedpatch) (images : Image) (mode : String) : Except PyError Image :=
  if "half_patch" ∈ shiftedpatch_attrNames then
    .ok (crop_shift_pad self.image_size self.haff_patch images mode)
  else
    .error (.attributeError "half_patch")

/-- Number of patch positions along one axis of length `n` for
`tf.image.extract_patches` with patch side `p`, stride `p`, `padding="VALID"`:
`(n - p) / p + 1` when at least one patch fits, else 0. -/
def gridCount (n p : ℕ) : ℕ :=
  if 0 < p ∧ p ≤ n then (n - p) / p + 1 else 0

/-- The flattened contents of the patch at grid position (r, c): the pixels of
rows `r*p..r*p+p-1`, columns `c*p..c*p+p-1`, all channels, in row-major
(row, column, channel) order — the depth layout of `tf.image.extract_patches`. -/
def patchVector (p : ℕ) (img : Image) (r c : ℕ) : List ℝ :=
  (List.range p).flatMap fun di =>
    (List.range p).flatMap fun dj =>
      (List.range img.channels).map fun ch => img.pix (r * p + di) (c * p + dj) ch

/-- `tf.image.extract_patches(images, sizes=[1,p,p,1], strides=[1,p,p,1],
rates=[1,1,1,1], padding="VALID")`: one flattened vector per patch grid
position, grid traversed row-major. -/
def extract_patches (p : ℕ) (img : Image) : List (List ℝ) :=
  (List.range (gridCount img.height p)).flatMap fun r =>
    (List.range (gridCount img.width p)).map fun c => patchVector p img r c

/-- `layers.Reshape((num_patches, -1))` applied to the extracted patches: the
elements are laid out flat and regrouped into `num_patches` equal rows. -/
def reshape_tokens (num_patches : ℕ) (patches : List (List ℝ)) : List (List ℝ) :=
  let flat := patches.flatten
  let rowLen := flat.length / num_patches
  (List.range num_patches).map fun i => (flat.drop (i * rowLen)).take rowLen

/-- The channel concatenation of the locality branch (vit.py lines 126-131):
the original image concatenated with its four diagonally shifted copies along
the channel axis, with the half-patch value resolved. -/
def locality_concat (image_size half_patch : ℕ) (images : Image) : Image :=
  concat_channels
    (concat_channels
      (concat_channels
        (concat_channels images (crop_shift_pad image_size half_patch images "left-up"))
        (crop_shift_pad image_size half_patch images "left-down"))
      (crop_shift_pad image_size half_patch images "right-up"))
    (crop_shift_pad image_size half_patch images "right-down")

/-- `shiftedpatch.call(images)` (vit.py lines 124-143): in locality mode the
image is concatenated with its four shifted copies (each produced by the
`crop_shift_pad` method, whose attribute lookup may raise); patches are then
extracted, reshaped to `(num_patches, -1)`, and projected — with a layer
normalization before the projection in locality mode only.  Returns
`(tokenz, patches)`. -/
def shiftedpatch_call (self : shiftedpatch) (images : Image) : Except PyError (List (List ℝ) × List (List ℝ)) :=
  if !self.vanilla then do
    let lu ← crop_shift_pad_method self images "left-up"
    let ld ← crop_shift_pad_method self images "left-down"
    let ru ← crop_shift_pad_method self images "right-up"
    let rd ← crop_shift_pad_method self images "right-down"
    let cat := concat_channels (concat_channels (concat_channels (concat_channels images lu) ld) ru) rd
    let patches := extract_patches self.patch_size cat
    let flat_patches := reshape_tokens self.num_patches patches
    let tokenz := flat_patches.map fun v => self.projection (self.layer_norm v)
    return (tokenz, patches)
  else
    let patches := extract_patches self.patch_size images
    let flat_patches := reshape_tokens self.num_patches patches
    let tokenz := flat_patches.map self.projection
    return (tokenz, patches)

/-- `diag_attn_mask = 1 - tf.eye(num_patches)` (vit.py line 181): an
`n × n` matrix with 0 on the diagonal and 1 elsewhere (the later cast to int8
and the added batch axis do not change the entries). -/
def diag_attn_mask (n : ℕ) : Fin n → Fin n → ℤ :=
  fun i j => 1 - (if i = j then 1 else 0)

/-- Modelled from the spec: the masked softmax used by the attention layer
(`self._masked_softmax`, a Keras internal not present in this repository)
"assigns an effectively-zero probability to disallowed positions before
normalizing scores into a probability distribution over key positions": a
masked-out (mask entry 0) position gets probability exactly 0, the allowed
positions share `exp(score)` weights normalized over the allowed set. -/
noncomputable def maskedSoftmax {n : ℕ} (mask : Fin n → Fin n → ℤ) (scores : Fin n → Fin n → ℝ) : Fin n → Fin n → ℝ :=
  fun i j =>
    if mask i j ≠ 0 then
      Real.exp (scores i j) / ∑ k ∈ Finset.univ.filter (fun k => mask i k ≠ 0), Real.exp (scores i k)
    else 0

/-- Modelled from the spec: plain (unmasked) softmax over key positions. -/
noncomputable def softmax_row {n : ℕ} (s : Fin n → ℝ) : Fin n → ℝ :=
  fun j => Real.exp (s j) / ∑ k, Real.exp (s k)

/-- The optional-mask softmax step of `_compute_attention`: with a mask it is
the masked softmax above, without one the plain softmax, per attention head. -/
noncomputable def masked_softmax_step {H N : ℕ} (mask : Option (Fin N → Fin N → ℤ)) (scores : Fin H → Fin N → Fin N → ℝ) : Fin H → Fin N → Fin N → ℝ :=
  fun h i j =>
    match mask with
    | some m => maskedSoftmax m (scores h) i j
    | none => softmax_row (scores h i) j

/-- `tf.einsum(self._dot_product_equation, key, query)` for Keras
multi-head attention ("aecd,abcd->acbe", batch axis dropped): per head `h`,
score of query position `i` against key position `j` is the dot product over
the head dimension. -/
noncomputable def dot_product_scores {H N D : ℕ} (key query : Fin N → Fin H → Fin D → ℝ) : Fin H → Fin N → Fin N → ℝ :=
  fun h i j => ∑ d, key j h d * query i h d

/-- `tf.einsum(self._combine_equation, probs, value)` ("acbe,aecd->abcd",
batch axis dropped): the attention output at query position `i`, head `h`,
dimension `d`. -/
noncomputable def combine_output {H N D : ℕ} (probs : Fin H → Fin N → Fin N → ℝ) (value : Fin N → Fin H → Fin D → ℝ) : Fin N → Fin H → Fin D → ℝ :=
  fun i h d => ∑ j, probs h i j * value j h d

/-- The common scaled-dot-product attention skeleton: queries multiplied by the
scalar `s`, then scores, optional-mask softmax, dropout (`drop`, identity at
inference) on the probabilities, and combination with the values.  Returns
`(attention_output, attention_scores)` with the scores taken after the softmax
and before the dropout, as the source does. -/
noncomputable def attention_with_scale {H N D : ℕ} (s : ℝ)
    (drop : (Fin H → Fin N → Fin N → ℝ) → (Fin H → Fin N → Fin N → ℝ))
    (query key value : Fin N → Fin H → Fin D → ℝ) (mask : Option (Fin N → Fin N → ℤ)) :
    (Fin N → Fin H → Fin D → ℝ) × (Fin H → Fin N → Fin N → ℝ) :=
  let q := fun i h d => query i h d * s
  let attention_scores := dot_product_scores key q
  let probs := masked_softmax_step mask attention_scores
  (combine_output (drop probs) value, probs)

/-- The single learned scalar a `multiheadattention` layer adds over the Keras
base class: `self.trainable = tf.Variable(math.sqrt(float(self._key_dim)),
trainable = True)` (vit.py line 165). -/
structure multiheadattention where
  trainable : ℝ

/-- `multiheadattention.__init__` for a given `key_dim`: the learned
temperature scalar starts at `sqrt(key_dim)`. -/
noncomputable def multiheadattention_init (key_dim : ℕ) : multiheadattention :=
  { trainable := Real.sqrt key_dim }

/-- `multiheadattention._compute_attention` (vit.py lines 167-174): the query
is first multiplied by `1.0 / self.trainable`, then scores, masked softmax,
dropout, and combination follow the Keras skeleton; no fixed `1/sqrt(dim)`
division of the scores appears anywhere. -/
noncomputable def lsa_compute_attention {H N D : ℕ} (trainable : ℝ)
    (drop : (Fin H → Fin N → Fin N → ℝ) → (Fin H → Fin N → Fin N → ℝ))
    (query key value : Fin N → Fin H → Fin D → ℝ) (mask : Option (Fin N → Fin N → ℤ)) :
    (Fin N → Fin H → Fin D → ℝ) × (Fin H → Fin N → Fin N → ℝ) :=
  let q := fun i h d => query i h d * (1 / trainable)
  let attention_scores := dot_product_scores key q
  let probs := masked_softmax_step mask attention_scores
  let probs_drop := drop probs
  (combine_output probs_drop value, probs)

/-- Modelled from the spec: the standard Keras `_compute_attention` that the
subclass overrides (not present in this repository) — identical pipeline, but
the query is multiplied by the fixed `1 / sqrt(key_dim)`. -/
noncomputable def std_compute_attention {H N D : ℕ} (key_dim : ℕ)
    (drop : (Fin H → Fin N → Fin N → ℝ) → (Fin H → Fin N → Fin N → ℝ))
    (query key value : Fin N → Fin H → Fin D → ℝ) (mask : Option (Fin N → Fin N → ℤ)) :
    (Fin N → Fin H → Fin D → ℝ) × (Fin H → Fin N → Fin N → ℝ) :=
  let q := fun i h d => query i h d * (1 / Real.sqrt key_dim)
  let attention_scores := dot_product_scores key q
  let probs := masked_softmax_step mask attention_scores
  let probs_drop := drop probs
  (combine_output probs_drop value, probs)

/-- `layers.LayerNormalization(epsilon = eps)` at its initial parameters
(gamma 1, beta 0), applied to one feature row: subtract the mean, divide by
`sqrt(variance + eps)`. -/
noncomputable def layer_normalize (eps : ℝ) (xs : List ℝ) : List ℝ :=
  let n : ℝ := xs.length
  let mu := xs.sum / n
  let v := (xs.map fun x => (x - mu) ^ 2).sum / n
  xs.map fun x => (x - mu) / Real.sqrt (v + eps)

/-- `layer_norm_eps = 1e-6` (vit.py line 48). -/
noncomputable def layer_norm_eps : ℝ := 1e-6

/-- Elementwise `layers.Add()` on two token sequences. -/
noncomputable def addSeq (a b : List (List ℝ)) : List (List ℝ) :=
  List.zipWith (fun r s => List.zipWith (· + ·) r s) a b

/-- Elementwise subtraction of two token sequences (the `-` on vit.py line
199). -/
noncomputable def subSeq (a b : List (List ℝ)) : List (List ℝ) :=
  List.zipWith (fun r s => List.zipWith (· - ·) r s) a b

/-- One transformer encoder block as built by `vit_classifier` (vit.py lines
190-200), with the attention sublayer and the `mlp` collaborator abstracted as
the functions `attend` and `ff`:
`x1 = LayerNorm(enc)`; `attention_output = attend(x1)`;
`x2 = Add([attention_output, enc])`; `x3 = LayerNorm(x2)`;
line 199 evaluates `x3 - mlp(x3, ...)` as a bare expression statement, binding
nothing; the block output is `Add([x3, x2])`. -/
noncomputable def encoder_block (attend ff : List (List ℝ) → List (List ℝ)) (enc : List (List ℝ)) : List (List ℝ) :=
  let x1 := enc.map (layer_normalize layer_norm_eps)
  let attention_output := attend x1
  let x2 := addSeq attention_output enc
  let x3 := x2.map (layer_normalize layer_norm_eps)
  let _discarded := subSeq x3 (ff x3)
  addSeq x3 x2

/-- The state a `warmupcosine` schedule holds after `__init__` (vit.py lines
214-220); the float fields are exact rationals. -/
structure warmupcosine where
  learning_rate_base : ℚ
  total_steps : ℕ
  warmup_learning_rate : ℚ
  warmup_steps : ℕ

/-- The attribute names `warmupcosine.__init__` assigns on `self`
(vit.py lines 216-220), in order. -/
def warmupcosine_attrNames : List String :=
  ["learning_rate_base", "total_steps", "warmup_learning_rate", "warmup_steps", "pi"]

/-- `warmupcosine.__init__`: pure field assignments, no validation, no raise;
the `Except` result records that Python construction could raise but here
always succeeds. -/
def warmupcosine_init (learning_rate_base : ℚ) (total_steps : ℕ) (warmup_learning_rate : ℚ) (warmup_steps : ℕ) : Except PyError warmupcosine :=
  .ok { learning_rate_base := learning_rate_base
        total_steps := total_steps
        warmup_learning_rate := warmup_learning_rate
        warmup_steps := warmup_steps }

/-- The final `tf.where(step > self.total_Steps, 0.0, learning_rate)` of
`warmupcosine.__call__` (vit.py line 235): the name `total_Steps` is looked up
among the instance's attributes; `__init__` assigned `total_steps`, so the
read raises `AttributeError` when the name is absent. -/
noncomputable def warmupcosine_finalClamp (self : warmupcosine) (step : ℕ) (learning_rate : ℝ) : Except PyError ℝ :=
  if "total_Steps" ∈ warmupcosine_attrNames then
    .ok (if self.total_steps < step then 0 else learning_rate)
  else
    .error (.attributeError "total_Steps")

/-- `warmupcosine.__call__(step)` (vit.py lines 222-235): raises on
`total_steps < warmup_steps`; computes the cosine-annealed rate; inside the
`warmup_steps > 0` branch raises on `learning_rate_base < warmup_learning_rate`
and otherwise selects the linear warmup rate for `step < warmup_steps`; the
final clamp then reads `self.total_Steps`. -/
noncomputable def warmupcosine_call (self : warmupcosine) (step : ℕ) : Except PyError ℝ :=
  if self.total_steps < self.warmup_steps then
    .error (.valueError "Total Steps must be larger or equal to warmup steps")
  else
    let cos_annealed_lr : ℝ :=
      Real.cos (Real.pi * ((step : ℝ) - (self.warmup_steps : ℝ)) / ((self.total_steps : ℝ) - (self.warmup_steps : ℝ)))
    let learning_rate : ℝ := 0.5 * (self.learning_rate_base : ℝ) * (1 + cos_annealed_lr)
    if 0 < self.warmup_steps then
      if self.learning_rate_base < self.warmup_learning_rate then
        .error (.valueError "Base learning rate must be larger than warmup learning rate")
      else
        let slope : ℝ := ((self.learning_rate_base : ℝ) - (self.warmup_learning_rate : ℝ)) / (self.warmup_steps : ℝ)
        let warmup_rate : ℝ := slope * (step : ℝ) + (self.warmup_learning_rate : ℝ)
        let learning_rate : ℝ := if step < self.warmup_steps then warmup_rate else learning_rate
        warmupcosine_finalClamp self step learning_rate
    else
      warmupcosine_finalClamp self step learning_rate

/-! ## Helper lemmas -/

theorem length_flatMap_const {α β : Type} (l : List α) (f : α → List β) (k : ℕ)
    (h : ∀ a, (f a).length = k) : (l.flatMap f).length = l.length * k := by
  induction l with
  | nil => simp
  | cons a t ih =>
    have hc : (a :: t).flatMap f = f a ++ t.flatMap f := rfl
    rw [hc, List.length_append, h, ih, List.length_cons]
    ring

theorem patchVector_length (p : ℕ) (img : Image) (r c : ℕ) :
    (patchVector p img r c).length = p * (p * img.channels) := by
  have hinner : ∀ di, ((List.range p).flatMap fun dj =>
      (List.range img.channels).map fun ch => img.pix (r * p + di) (c * p + dj) ch).length
      = p * img.channels := by
    intro di
    rw [length_flatMap_const _ _ img.channels (fun dj => by simp), List.length_range]
  unfold patchVector
  rw [length_flatMap_const _ _ (p * img.channels) hinner, List.length_range]

theorem extract_patches_length (p : ℕ) (img : Image) :
    (extract_patches p img).length = gridCount img.height p * gridCount img.width p := by
  unfold extract_patches
  rw [length_flatMap_const _ _ (gridCount img.width p) (fun r => by simp), List.length_range]

theorem reshape_tokens_length (n : ℕ) (ps : List (List ℝ)) :
    (reshape_tokens n ps).length = n := by
  simp [reshape_tokens]

theorem locality_concat_channels (image_size half_patch : ℕ) (img : Image) :
    (locality_concat image_size half_patch img).channels = 5 * img.channels := by
  simp only [locality_concat, concat_channels, crop_shift_pad, pad_to_bounding_box,
    crop_to_bounding_box]
  ring

theorem shiftedpatch_call_locality_err (self : shiftedpatch) (h : self.vanilla = false)
    (img : Image) : shiftedpatch_call self img = .error (.attributeError "half_patch") := by
  have hcm : ∀ m : String,
      crop_shift_pad_method self img m = .error (.attributeError "half_patch") := by
    intro m
    unfold crop_shift_pad_method
    rw [if_neg (by decide : ¬ ("half_patch" ∈ shiftedpatch_attrNames))]
  simp only [shiftedpatch_call, h, hcm, Bool.not_false, if_true]
  rfl

theorem warmupcosine_call_total_Steps_lookup_fails (lrb wlr : ℚ) (ts ws step : ℕ)
    (h1 : ws ≤ ts) (h2 : 0 < ws → ¬ lrb < wlr) :
    warmupcosine_call ⟨lrb, ts, wlr, ws⟩ step = .error (.attributeError "total_Steps") := by
  have hmem : ¬ ("total_Steps" ∈ warmupcosine_attrNames) := by decide
  simp only [warmupcosine_call, warmupcosine_finalClamp, if_neg hmem]
  split_ifs with a b c <;> first | rfl | omega | exact absurd c (h2 b)

theorem crop_shift_pad_left_up_eq (S H : ℕ) (img : Image) :
    crop_shift_pad S H img "left-up" =
      pad_to_bounding_box (crop_to_bounding_box img H H (S - H) (S - H)) 0 0 S S := rfl

theorem crop_shift_pad_left_down_eq (S H : ℕ) (img : Image) :
    crop_shift_pad S H img "left-down" =
      pad_to_bounding_box (crop_to_bounding_box img 0 H (S - H) (S - H)) H 0 S S := rfl

theorem crop_shift_pad_right_up_eq (S H : ℕ) (img : Image) :
    crop_shift_pad S H img "right-up" =
      pad_to_bounding_box (crop_to_bounding_box img H 0 (S - H) (S - H)) 0 H S S := rfl

theorem crop_shift_pad_right_down_eq (S H : ℕ) (img : Image) :
    crop_shift_pad S H img "right-down" =
      pad_to_bounding_box (crop_to_bounding_box img 0 0 (S - H) (S - H)) H H S S := rfl

theorem crop_shift_pad_pix_left_up (S H : ℕ) (img : Image) (i j c : ℕ) :
    (crop_shift_pad S H img "left-up").pix i j c =
      if i < S - H ∧ j < S - H then img.pix (i + H) (j + H) c else 0 := by
  rw [crop_shift_pad_left_up_eq]
  simp only [pad_to_bounding_box, crop_to_bounding_box, Nat.zero_add, Nat.sub_zero,
    Nat.zero_le, true_and]
  split_ifs <;> first | rfl | omega

theorem crop_shift_pad_pix_left_down (S H : ℕ) (img : Image) (i j c : ℕ) :
    (crop_shift_pad S H img "left-down").pix i j c =
      if H ≤ i ∧ i < H + (S - H) ∧ j < S - H then img.pix (i - H) (j + H) c else 0 := by
  rw [crop_shift_pad_left_down_eq]
  simp only [pad_to_bounding_box, crop_to_bounding_box, Nat.zero_add, Nat.sub_zero,
    Nat.add_zero, Nat.zero_le, true_and]
  split_ifs <;> first | rfl | omega

theorem crop_shift_pad_pix_right_up (S H : ℕ) (img : Image) (i j c : ℕ) :
    (crop_shift_pad S H img "right-up").pix i j c =
      if i < S - H ∧ H ≤ j ∧ j < H + (S - H) then img.pix (i + H) (j - H) c else 0 := by
  rw [crop_shift_pad_right_up_eq]
  simp only [pad_to_bounding_box, crop_to_bounding_box, Nat.zero_add, Nat.sub_zero,
    Nat.add_zero, Nat.zero_le, true_and]
  split_ifs <;> first | rfl | omega

theorem crop_shift_pad_pix_right_down (S H : ℕ) (img : Image) (i j c : ℕ) :
    (crop_shift_pad S H img "right-down").pix i j c =
      if H ≤ i ∧ i < H + (S - H) ∧ H ≤ j ∧ j < H + (S - H) then img.pix (i - H) (j - H) c
      else 0 := by
  rw [crop_shift_pad_right_down_eq]
  simp only [pad_to_bounding_box, crop_to_bounding_box, Nat.zero_add, Nat.sub_zero,
    Nat.add_zero, Nat.zero_le, true_and]
  split_ifs <;> first | rfl | omega

/-! ## Claim theorems -/

/-- C9: for every tokenizer constructed with `vanilla = false`, every call on
any input image fails with an attribute error before producing tokens: the
constructor stores the half-patch size under the name `haff_patch` while
`crop_shift_pad` reads `half_patch`, so the locality (shifted-patch)
tokenization path never returns a result. -/
theorem locality_tokenizer_attribute_error (image_size patch_size num_patches : ℕ)
    (proj ln : List ℝ → List ℝ) (img : Image) :
    shiftedpatch_call (shiftedpatch_init image_size patch_size num_patches proj ln false) img =
      .error (.attributeError "half_patch") :=
  shiftedpatch_call_locality_err _ rfl _

/-- C10: for every validly constructed warmup-cosine schedule (parameters that
pass both call-time validations) and every step, evaluating the rate fails
with an attribute error before returning a value: the final clamp reads
`total_Steps`, an attribute `__init__` never defines (it defines
`total_steps`), so the schedule never yields a learning rate for any step. -/
theorem warmupcosine_call_always_attribute_error (lrb wlr : ℚ) (ts ws step : ℕ)
    (h1 : ws ≤ ts) (h2 : 0 < ws → ¬ lrb < wlr) :
    warmupcosine_call ⟨lrb, ts, wlr, ws⟩ step = .error (.attributeError "total_Steps") :=
  warmupcosine_call_total_Steps_lookup_fails lrb wlr ts ws step h1 h2

/-- Witness for C10 at `base_rate = 1/100`, `total_steps = 10`,
`warmup_start_rate = 0`, `warmup_steps = 0`, `step = 3`. -/
theorem warmupcosine_call_always_attribute_error_witness :
    warmupcosine_call ⟨1/100, 10, 0, 0⟩ 3 = .error (.attributeError "total_Steps") :=
  warmupcosine_call_always_attribute_error (1/100) 0 10 0 3 (by decide)
    (fun h => absurd h (by decide))

/-- C2: the warmup-cosine rate function never computes the specified values on
any input: at the spec's own configuration (`base_rate = 0.001`,
`total_steps = 1960`, `warmup_start_rate = 0`, `warmup_steps = 196`) the call
at step 0 raises `AttributeError("total_Steps")` instead of returning
`warmup_start_rate`, because `__call__` reads `self.total_Steps` while
`__init__` assigned `self.total_steps`. -/
theorem warmupcosine_call_step0_attribute_error :
    warmupcosine_call ⟨1/1000, 1960, 0, 196⟩ 0 = .error (.attributeError "total_Steps") :=
  warmupcosine_call_total_Steps_lookup_fails (1/1000) 0 1960 196 0 (by norm_num)
    (fun _ => by norm_num)

/-- Counterexample to C3: constructing the schedule with `total_steps = 5` and
`warmup_steps = 10` — the spec's own failing-construction example — succeeds:
`__init__` performs only field assignments and raises nothing; likewise for
`base_rate = 0.001 < warmup_start_rate = 0.01` with `warmup_steps = 10`. -/
theorem warmupcosine_construction_succeeds_total5_warmup10 :
    warmupcosine_init (1/1000) 5 0 10 =
      .ok { learning_rate_base := 1/1000, total_steps := 5,
            warmup_learning_rate := 0, warmup_steps := 10 } ∧
    warmupcosine_init (1/1000) 100 (1/100) 10 =
      .ok { learning_rate_base := 1/1000, total_steps := 100,
            warmup_learning_rate := 1/100, warmup_steps := 10 } :=
  ⟨rfl, rfl⟩

/-- C3 (amended): construction of a warmup-cosine schedule always succeeds;
the two validations run at call time instead: a call raises the total-steps
`ValueError` exactly when `total_steps < warmup_steps`, and the base-rate
`ValueError` exactly when `total_steps ≥ warmup_steps`, `warmup_steps > 0`
and `base_rate < warmup_start_rate`. -/
theorem warmupcosine_validation_at_call_time (lrb wlr : ℚ) (ts ws step : ℕ) :
    warmupcosine_init lrb ts wlr ws = .ok ⟨lrb, ts, wlr, ws⟩ ∧
    (warmupcosine_call ⟨lrb, ts, wlr, ws⟩ step =
        .error (.valueError "Total Steps must be larger or equal to warmup steps") ↔
      ts < ws) ∧
    (warmupcosine_call ⟨lrb, ts, wlr, ws⟩ step =
        .error (.valueError "Base learning rate must be larger than warmup learning rate") ↔
      ws ≤ ts ∧ 0 < ws ∧ lrb < wlr) := by
  have hmem : ¬ ("total_Steps" ∈ warmupcosine_attrNames) := by decide
  have hstr : ("Total Steps must be larger or equal to warmup steps" : String) ≠
      "Base learning rate must be larger than warmup learning rate" := by decide
  refine ⟨rfl, ?_, ?_⟩ <;>
  · simp only [warmupcosine_call, warmupcosine_finalClamp, if_neg hmem]
    split_ifs with a b c <;> simp_all

/-- C4: the `crop_shift_pad` shift operation of the tokenizer (its method body,
with the stored half-patch value `half = patch_size // 2` in scope) crops at
offsets (top, left) of (half, half) for up-left ("left-up"), (0, half) for
down-left ("left-down"), (half, 0) for up-right ("right-up") and (0, 0) for
down-right ("right-down"), always to target size `image_size - half` in both
dimensions, then zero-pads at offsets (0, 0), (half, 0), (0, half) and
(half, half) respectively back to exactly `(image_size, image_size)`; the
per-pixel formulas make the resulting diagonal content shifts explicit. -/
theorem crop_shift_pad_offsets (image_size patch_size : ℕ) (img : Image) (i j c : ℕ) :
    (crop_shift_pad image_size (patch_size / 2) img "left-up" =
      pad_to_bounding_box (crop_to_bounding_box img (patch_size / 2) (patch_size / 2)
        (image_size - patch_size / 2) (image_size - patch_size / 2)) 0 0 image_size image_size) ∧
    (crop_shift_pad image_size (patch_size / 2) img "left-down" =
      pad_to_bounding_box (crop_to_bounding_box img 0 (patch_size / 2)
        (image_size - patch_size / 2) (image_size - patch_size / 2)) (patch_size / 2) 0
        image_size image_size) ∧
    (crop_shift_pad image_size (patch_size / 2) img "right-up" =
      pad_to_bounding_box (crop_to_bounding_box img (patch_size / 2) 0
        (image_size - patch_size / 2) (image_size - patch_size / 2)) 0 (patch_size / 2)
        image_size image_size) ∧
    (crop_shift_pad image_size (patch_size / 2) img "right-down" =
      pad_to_bounding_box (crop_to_bounding_box img 0 0
        (image_size - patch_size / 2) (image_size - patch_size / 2)) (patch_size / 2)
        (patch_size / 2) image_size image_size) ∧
    (∀ mode, (crop_shift_pad image_size (patch_size / 2) img mode).height = image_size ∧
      (crop_shift_pad image_size (patch_size / 2) img mode).width = image_size) ∧
    ((crop_shift_pad image_size (patch_size / 2) img "left-up").pix i j c =
      if i < image_size - patch_size / 2 ∧ j < image_size - patch_size / 2 then
        img.pix (i + patch_size / 2) (j + patch_size / 2) c else 0) ∧
    ((crop_shift_pad image_size (patch_size / 2) img "left-down").pix i j c =
      if patch_size / 2 ≤ i ∧ i < patch_size / 2 + (image_size - patch_size / 2) ∧
          j < image_size - patch_size / 2 then
        img.pix (i - patch_size / 2) (j + patch_size / 2) c else 0) ∧
    ((crop_shift_pad image_size (patch_size / 2) img "right-up").pix i j c =
      if i < image_size - patch_size / 2 ∧ patch_size / 2 ≤ j ∧
          j < patch_size / 2 + (image_size - patch_size / 2) then
        img.pix (i + patch_size / 2) (j - patch_size / 2) c else 0) ∧
    ((crop_shift_pad image_size (patch_size / 2) img "right-down").pix i j c =
      if patch_size / 2 ≤ i ∧ i < patch_size / 2 + (image_size - patch_size / 2) ∧
          patch_size / 2 ≤ j ∧ j < patch_size / 2 + (image_size - patch_size / 2) then
        img.pix (i - patch_size / 2) (j - patch_size / 2) c else 0) :=
  ⟨crop_shift_pad_left_up_eq _ _ _, crop_shift_pad_left_down_eq _ _ _,
    crop_shift_pad_right_up_eq _ _ _, crop_shift_pad_right_down_eq _ _ _,
    fun _ => ⟨rfl, rfl⟩,
    crop_shift_pad_pix_left_up _ _ _ _ _ _, crop_shift_pad_pix_left_down _ _ _ _ _ _,
    crop_shift_pad_pix_right_up _ _ _ _ _ _, crop_shift_pad_pix_right_down _ _ _ _ _ _⟩

/-- C1: the encoder block does not implement `enc_next = ff_out + residual1`:
line 199 computes `x3 - mlp(x3, ...)` as a discarded expression, so the block
returns `layer_normalize(residual1) + residual1` instead.  At the failing
input `enc = [[0, 2]]` with the attention output and the feed-forward output
both forced to zero vectors, the block's output differs from `enc` (the
claimed residual identity fails: the output is `enc + layer_normalize(enc)`). -/
theorem encoder_block_not_identity_on_zero_branches :
    encoder_block (fun _ => [[0, 0]]) (fun _ => [[0, 0]]) [[(0:ℝ), 2]] ≠ [[(0:ℝ), 2]] := by
  intro hEq
  have hhead := congrArg (fun l => (l.headD []).headD 37) hEq
  simp only [encoder_block, addSeq, subSeq, layer_normalize, layer_norm_eps] at hhead
  norm_num at hhead
  simp only [layer_normalize] at hhead
  norm_num at hhead

/-- Counterexample to C5: for `num_patches = 1` (the quantifier "for every
num_patches" includes it), every key position of the single query is its own
diagonal position, so the masked normalization assigns probability 0
everywhere and the row sums to 0, not 1. -/
theorem masked_softmax_row_sum_fails_single_patch :
    ¬ ((∑ j : Fin 1, maskedSoftmax (diag_attn_mask 1) (fun _ _ => (0:ℝ)) 0 j) = 1) := by
  simp [maskedSoftmax, diag_attn_mask]

/-- C5 (amended): for every `num_patches ≥ 2`, the diagonal attention mask has
zeros exactly on the diagonal and ones everywhere else, and for every
attention-score matrix the masked normalization assigns each query position
probability exactly 0 at its own (diagonal) key position while the remaining
probabilities sum to 1 per row. -/
theorem diag_mask_softmax_row_sum (n : ℕ) (hn : 2 ≤ n) (scores : Fin n → Fin n → ℝ)
    (i : Fin n) :
    (∀ j, diag_attn_mask n i j = if i = j then 0 else 1) ∧
    maskedSoftmax (diag_attn_mask n) scores i i = 0 ∧
    (∑ j, maskedSoftmax (diag_attn_mask n) scores i j) = 1 := by
  have hmask : ∀ j : Fin n, diag_attn_mask n i j ≠ 0 ↔ ¬ i = j := by
    intro j; by_cases h : i = j <;> simp [diag_attn_mask, h]
  refine ⟨?_, ?_, ?_⟩
  · intro j; by_cases h : i = j <;> simp [diag_attn_mask, h]
  · simp [maskedSoftmax, diag_attn_mask]
  · have hAne : (Finset.univ.filter (fun k => diag_attn_mask n i k ≠ 0)).Nonempty := by
      have hnt : Nontrivial (Fin n) := Fin.nontrivial_iff_two_le.mpr hn
      obtain ⟨k, hk⟩ := exists_ne i
      exact ⟨k, by simp [Finset.mem_filter, hmask, (Ne.symm hk)]⟩
    have hD : (0:ℝ) <
        ∑ k ∈ Finset.univ.filter (fun k => diag_attn_mask n i k ≠ 0), Real.exp (scores i k) :=
      Finset.sum_pos (fun k _ => Real.exp_pos _) hAne
    have hsum : (∑ j, maskedSoftmax (diag_attn_mask n) scores i j) =
        ∑ j ∈ Finset.univ.filter (fun k => diag_attn_mask n i k ≠ 0),
          Real.exp (scores i j) /
            ∑ k ∈ Finset.univ.filter (fun k => diag_attn_mask n i k ≠ 0),
              Real.exp (scores i k) := by
      rw [Finset.sum_filter]
      apply Finset.sum_congr rfl
      intro j _
      by_cases h : diag_attn_mask n i j ≠ 0 <;> simp [maskedSoftmax, h]
    rw [hsum, ← Finset.sum_div, div_self (ne_of_gt hD)]

/-- Witness for C5 at `num_patches = 2`, the all-zero score matrix and query
row 0. -/
theorem diag_mask_softmax_row_sum_witness :
    (∀ j, diag_attn_mask 2 0 j = if (0 : Fin 2) = j then 0 else 1) ∧
    maskedSoftmax (diag_attn_mask 2) (fun _ _ => (0:ℝ)) 0 0 = 0 ∧
    (∑ j, maskedSoftmax (diag_attn_mask 2) (fun _ _ => (0:ℝ)) 0 j) = 1 :=
  diag_mask_softmax_row_sum 2 (by norm_num) (fun _ _ => 0) 0

/-- C6: a locality attention layer holds exactly one learned scalar (the sole
field of `multiheadattention`), shared across all heads, set at construction
to `sqrt(key_dim)`; its attention computation equals the common skeleton with
query scale `1 / trainable` — while the standard computation is the same
skeleton with the fixed scale `1 / sqrt(key_dim)` — and the learned scale
factors out of every head's key-query dot product. -/
theorem lsa_attention_scale_characterization (key_dim H N D : ℕ)
    (drop : (Fin H → Fin N → Fin N → ℝ) → (Fin H → Fin N → Fin N → ℝ)) (t : ℝ)
    (query key value : Fin N → Fin H → Fin D → ℝ) (mask : Option (Fin N → Fin N → ℤ)) :
    (multiheadattention_init key_dim).trainable = Real.sqrt key_dim ∧
    lsa_compute_attention t drop query key value mask =
      attention_with_scale (1 / t) drop query key value mask ∧
    std_compute_attention key_dim drop query key value mask =
      attention_with_scale (1 / Real.sqrt key_dim) drop query key value mask ∧
    (∀ h i j, dot_product_scores key (fun i2 h2 d => query i2 h2 d * (1 / t)) h i j =
      (1 / t) * dot_product_scores key query h i j) := by
  refine ⟨rfl, rfl, rfl, ?_⟩
  intro h i j
  simp only [dot_product_scores, Finset.mul_sum]
  exact Finset.sum_congr rfl fun d _ => by ring

/-- C7: for identical image and patch sizes, a flattened patch on the vanilla
tokenization path has exactly 1/5th the feature count of the corresponding
pre-projection patch vector on the locality path, because the locality path
concatenates the original image with four shifted copies along the channel
axis (5× the channels) while the vanilla path patches the single original
image. -/
theorem vanilla_locality_feature_count_relation (image_size patch_size : ℕ) (img : Image)
    (r c r2 c2 : ℕ) :
    (locality_concat image_size (patch_size / 2) img).channels = 5 * img.channels ∧
    5 * (patchVector patch_size img r c).length =
      (patchVector patch_size (locality_concat image_size (patch_size / 2) img) r2 c2).length := by
  refine ⟨locality_concat_channels _ _ _, ?_⟩
  rw [patchVector_length, patchVector_length, locality_concat_channels]
  ring

/-- C8: at the program's configuration (`image_size = 72`, `patch_size = 6`,
`num_patches = (72/6)² = 144`) on a 72×72×3 image: the locality-mode call
raises `AttributeError("half_patch")` instead of returning the claimed
`(image_size/patch_size)²` tokens (the code bug), while the vanilla-mode call
returns exactly `(72/6)²` tokens, and the patch extraction itself yields
exactly `(72/6)²` patches. -/
theorem tokenizer_token_count_and_locality_failure (pix : ℕ → ℕ → ℕ → ℝ)
    (proj ln : List ℝ → List ℝ) :
    shiftedpatch_call (shiftedpatch_init 72 6 ((72 / 6) ^ 2) proj ln false) ⟨72, 72, 3, pix⟩ =
      .error (.attributeError "half_patch") ∧
    (shiftedpatch_call (shiftedpatch_init 72 6 ((72 / 6) ^ 2) proj ln true)
        ⟨72, 72, 3, pix⟩).map (fun r => r.1.length) = .ok ((72 / 6) ^ 2) ∧
    (extract_patches 6 ⟨72, 72, 3, pix⟩).length = (72 / 6) ^ 2 := by
  refine ⟨shiftedpatch_call_locality_err _ rfl _, ?_, ?_⟩
  · simp [shiftedpatch_call, shiftedpatch_init, reshape_tokens_length, Except.map, pure,
      Except.pure, List.length_map]
  · rw [extract_patches_length]
    norm_num [gridCount]

end Vit
